import Mathlib

/-!
Shallow embedding of the nvgpu_driver command-submission and GPU-memory
ownership subsystem (crates nvapp, nvgpu, nvmap) together with proofs about
its specification.

Machine integers (u32, u64, usize) are embedded as `Nat` with explicit
`% 2 ^ w` at the points where the Rust code performs a truncating cast or a
wrapping operation.  Fallible Rust code (functions returning `Result`, plus
`assert!`/`panic!` which abort) is embedded with `Except`.  Kernel ioctl
calls are external effects: every modeled operation takes the outcome of
each kernel request it performs as an explicit argument (an oracle) and
additionally returns the list of requests it issued (an event log), so that
frame properties such as "performs no ring submission" are directly
statable.
-/

namespace NvGpu

deriving instance DecidableEq for Except

/-- Kernel error code (the Rust code carries `nix::errno::Errno`). -/
abbrev Errno := Nat

/-! ### Bit-range accessors

The `bitfield!` macro used for `GpFifoEntry` in src/nvgpu/src/lib.rs
generates, for a field declared `name, set_name: msb, lsb`, a getter that
extracts bits [msb:lsb] and a setter that overwrites bits [msb:lsb] with the
given value truncated to the field width, leaving all other bits unchanged.
-/

/-- Read bits [msb:lsb] of a word. -/
def bit_range_get (w msb lsb : Nat) : Nat :=
  w / 2 ^ lsb % 2 ^ (msb - lsb + 1)

/-- Overwrite bits [msb:lsb] of a word with `value` truncated to the field
width, leaving the bits above msb and below lsb unchanged. -/
def bit_range_set (w msb lsb value : Nat) : Nat :=
  w / 2 ^ (msb + 1) * 2 ^ (msb + 1)
    + value % 2 ^ (msb - lsb + 1) * 2 ^ lsb
    + w % 2 ^ lsb

/-- Hardware command header word (`GpFifoEntry(u32)` in src/nvgpu/src/lib.rs). -/
abbrev GpFifoEntry := Nat

/-- Field `method: 12, 0`. -/
def GpFifoEntry.method (w : GpFifoEntry) : Nat := bit_range_get w 12 0

/-- Field setter `set_method: 12, 0`. -/
def GpFifoEntry.set_method (w : GpFifoEntry) (v : Nat) : GpFifoEntry :=
  bit_range_set w 12 0 v

/-- Field `sub_channel: 15, 13`. -/
def GpFifoEntry.sub_channel (w : GpFifoEntry) : Nat := bit_range_get w 15 13

/-- Field setter `set_sub_channel: 15, 13`. -/
def GpFifoEntry.set_sub_channel (w : GpFifoEntry) (v : Nat) : GpFifoEntry :=
  bit_range_set w 15 13 v

/-- Field `argument_count: 26, 16`. -/
def GpFifoEntry.argument_count (w : GpFifoEntry) : Nat := bit_range_get w 26 16

/-- Field setter `set_argument_count: 26, 16`. -/
def GpFifoEntry.set_argument_count (w : GpFifoEntry) (v : Nat) : GpFifoEntry :=
  bit_range_set w 26 16 v

/-- Field `inline_arguments: 26, 16` (same bit range as `argument_count`). -/
def GpFifoEntry.inline_arguments (w : GpFifoEntry) : Nat := bit_range_get w 26 16

/-- Field setter `set_inline_arguments: 26, 16` (same bit range as
`set_argument_count`). -/
def GpFifoEntry.set_inline_arguments (w : GpFifoEntry) (v : Nat) : GpFifoEntry :=
  bit_range_set w 26 16 v

/-- Field `submission_mode: 31, 29`. -/
def GpFifoEntry.submission_mode (w : GpFifoEntry) : Nat := bit_range_get w 31 29

/-- Field setter `set_submission_mode: 31, 29`. -/
def GpFifoEntry.set_submission_mode (w : GpFifoEntry) (v : Nat) : GpFifoEntry :=
  bit_range_set w 31 29 v

/-! ### Command encoder (src/nvapp/src/utils/command_stream.rs) -/

/-- Enum `CommandSubmissionMode`. -/
inductive CommandSubmissionMode where
  | IncreasingOld
  | Increasing
  | NonIncreasingOld
  | NonIncreasing
  | Inline
  | IncreasingOnce
deriving DecidableEq, Repr

/-- Enum `SubChannelId`. -/
inductive SubChannelId where
  | ThreeD
  | Compute
  | InlineToMemory
  | TwoD
  | DirectMemoryAccess
deriving DecidableEq, Repr

/-- Impl `From<SubChannelId> for u32`. -/
def SubChannelId.toRaw : SubChannelId → Nat
  | .ThreeD => 0
  | .Compute => 1
  | .InlineToMemory => 2
  | .TwoD => 3
  | .DirectMemoryAccess => 4

/-- The `match` in `Command::new_raw` mapping a submission mode to its
3-bit hardware tag. -/
def submission_mode_id : CommandSubmissionMode → Nat
  | .IncreasingOld => 0
  | .Increasing => 1
  | .NonIncreasingOld => 2
  | .NonIncreasing => 3
  | .Inline => 4
  | .IncreasingOnce => 5

/-- Struct `Command`: header word under construction, submission mode, and
the collected 32-bit argument words. -/
structure Command where
  entry : GpFifoEntry
  submission_mode : CommandSubmissionMode
  arguments : List Nat
deriving DecidableEq, Repr

/-- `Command::new_raw`: start from a zero header, write method, sub-channel
and submission-mode tag into it. -/
def Command.new_raw (method : Nat) (sub_channel : Nat)
    (submission_mode : CommandSubmissionMode) : Command :=
  let entry : GpFifoEntry := 0
  let entry := entry.set_method method
  let entry := entry.set_sub_channel sub_channel
  let entry := entry.set_submission_mode (submission_mode_id submission_mode)
  { entry := entry, submission_mode := submission_mode, arguments := [] }

/-- `Command::new`: converts the sub-channel enum to its raw id. -/
def Command.new (method : Nat) (sub_channel : SubChannelId)
    (submission_mode : CommandSubmissionMode) : Command :=
  Command.new_raw method sub_channel.toRaw submission_mode

/-- `Command::new_inline`: an Inline-mode command whose immediate payload is
written into the shared bits [26:16] of the header. -/
def Command.new_inline (method : Nat) (sub_channel : SubChannelId)
    (arguments : Nat) : Command :=
  let res := Command.new_raw method sub_channel.toRaw CommandSubmissionMode.Inline
  { res with entry := res.entry.set_inline_arguments arguments }

/-- `Command::push_argument`: `assert!(self.submission_mode != Inline)` then
append; the failed assertion is a Rust panic, embedded as `Except.error`. -/
def Command.push_argument (c : Command) (argument : Nat) : Except String Command :=
  if c.submission_mode = CommandSubmissionMode.Inline then
    Except.error "assertion failed: submission_mode is Inline"
  else
    Except.ok { c with arguments := c.arguments ++ [argument] }

/-- `Command::push_address`: pushes `(address >> 32) as u32` then
`address as u32` (high 32 bits first, then low 32 bits). -/
def Command.push_address (c : Command) (address : Nat) : Except String Command := do
  let c ← c.push_argument (address / 2 ^ 32)
  c.push_argument (address % 2 ^ 32)

/-- `u32::from_le_bytes` over a little-endian byte list (missing positions
read as the zero initialisation of the temporary array). -/
def u32_from_le_bytes (b : List Nat) : Nat :=
  b.getD 0 0 + b.getD 1 0 * 2 ^ 8 + b.getD 2 0 * 2 ^ 16 + b.getD 3 0 * 2 ^ 24

/-- `Command::push_inlined_buffer`: loop over `data_len = (len + 3) / 4`
word positions; the last position, when `len % 4 != 0`, packs the remaining
`rest_len` bytes into a zero-initialised 4-byte temporary, every other
position packs the full 4-byte slice `data[i*4..(i+1)*4]`. -/
def Command.push_inlined_buffer (c : Command) (data : List Nat) :
    Except String Command :=
  let data_len := (data.length + 3) / 4
  let rest_len := data.length % 4
  (List.range data_len).foldlM
    (fun acc i =>
      if i = data_len - 1 ∧ rest_len ≠ 0 then
        acc.push_argument (u32_from_le_bytes ((data.drop (i * 4)).take rest_len))
      else
        acc.push_argument (u32_from_le_bytes ((data.drop (i * 4)).take 4)))
    c

/-- `Command::into_vec`: finalize `argument_count` from
`self.arguments.len() as u32` (a truncating usize-to-u32 cast), then return
the header followed by the argument words. -/
def Command.into_vec (c : Command) : List Nat :=
  let entry := c.entry.set_argument_count (c.arguments.length % 2 ^ 32)
  entry :: c.arguments

/-! ### Kernel interface events

Every modeled operation returns the list of kernel requests (plus ring
registrations) it performed, so that no-request and exactly-one-request
properties can be stated about a call.
-/

/-- `struct nvgpu_fence` / `RawFence`: a sync fd id and a counter value. -/
structure RawFence where
  id : Int
  value : Nat
deriving DecidableEq, Repr

/-- One externally visible action of the modeled code: a kernel request
issued through a device node, or a registration of a descriptor into the
ring queue array. -/
inductive Event where
  | nvmap_create (size : Nat)
  | nvmap_get_fd (raw_handle : Nat)
  | nvmap_alloc (raw_handle heap_mask flags align : Nat)
  | nvmap_mmap (fd : Int) (size : Nat)
  | nvmap_munmap (size : Nat)
  | nvmap_cache (raw_handle length : Nat) (operation : Nat)
  | nvmap_free (raw_handle : Nat)
  | as_map_buffer (fd : Int) (flags page_size fixed_address : Nat)
  | as_unmap_buffer (gpu_address : Nat)
  | ring_append (value : Nat)
  | channel_submit (entries : List Nat) (fence : RawFence) (flags : Nat)
  | poll (fd : Int)
deriving DecidableEq, Repr

/-! ### Ring queue (`GpFifoQueue`, src/nvgpu/src/lib.rs)

The Rust struct holds a fixed `[u64; GPFIFO_QUEUE_SIZE]` array plus a write
cursor `position`; array cells at and beyond the cursor are never read, so
the queue is embedded as the list of the cells below the cursor (its length
is the cursor). -/

/-- `GPFIFO_QUEUE_SIZE`: ring capacity, 0x800 = 2048 entries. -/
def GPFIFO_QUEUE_SIZE : Nat := 0x800

/-- Ring queue state: written descriptor slots (length = write cursor) and
the at-most-one tracked completion fence. -/
structure GpFifoQueue where
  entries : List Nat
  waiting_fence : Option RawFence
deriving DecidableEq, Repr

/-- `GpFifoQueue::new`: zeroed array, no fence, cursor 0. -/
def GpFifoQueue.new : GpFifoQueue :=
  { entries := [], waiting_fence := none }

/-- `GpFifoQueue::append`: panics (`Except.error`) when the cursor has
reached capacity, otherwise stores `gpu_address | (command_count << 42)`
at the cursor and advances it. -/
def GpFifoQueue.append (q : GpFifoQueue) (gpu_address command_count : Nat)
    (_flags : Nat) : Except String GpFifoQueue :=
  if q.entries.length ≥ GPFIFO_QUEUE_SIZE then
    Except.error "No more space availaible in GpFifoCommandBuilder"
  else
    Except.ok
      { q with
        entries := q.entries ++ [gpu_address ||| command_count * 2 ^ 42 % 2 ^ 64] }

/-- `Channel::submit_gpfifo`: a missing input fence is replaced by the
default `RawFence { id: -1, value: 0xFFFF_FFFF }`; on ioctl success the
(kernel-written) fence field is returned exactly when flag bit 1 is set.
The ioctl outcome is the oracle argument `ioctl_res`. -/
def Channel.submit_gpfifo (entries : List Nat) (input_fence : Option RawFence)
    (flags : Nat) (ioctl_res : Except Errno RawFence) :
    Except Errno (Option RawFence) × List Event :=
  let fence_arg := input_fence.getD { id := -1, value := 0xFFFFFFFF }
  let result :=
    match ioctl_res with
    | Except.error e => Except.error e
    | Except.ok fence_out =>
        Except.ok (if flags &&& 2 ≠ 0 then some fence_out else none)
  (result, [Event.channel_submit entries fence_arg flags])

/-- `GpFifoQueue::submit`: takes the stored fence (leaving `none` behind),
sets flags `1 << 1 | 1 << 3` plus bit 0 when a previous fence is passed as
wait precondition, hands the written slots to the kernel, and on success
stores the returned fence and resets the cursor to zero. -/
def GpFifoQueue.submit (q : GpFifoQueue) (ioctl_res : Except Errno RawFence) :
    Except Errno Unit × GpFifoQueue × List Event :=
  let waiting_fence := q.waiting_fence
  let flags := 1 <<< 1 ||| 1 <<< 3
  let flags := if waiting_fence.isSome then flags ||| 1 else flags
  match Channel.submit_gpfifo q.entries waiting_fence flags ioctl_res with
  | (Except.error e, log) =>
      (Except.error e, { q with waiting_fence := none }, log)
  | (Except.ok fence, log) =>
      (Except.ok (), { entries := [], waiting_fence := fence }, log)

/-- `GpFifoQueue::wait_idle`: takes the fence if present and polls its fd;
returns immediately when no fence is tracked.  The poll outcome is the
oracle argument. -/
def GpFifoQueue.wait_idle (q : GpFifoQueue) (poll_res : Except Errno Unit) :
    Except Errno Unit × GpFifoQueue × List Event :=
  match q.waiting_fence with
  | some fence => (poll_res, { q with waiting_fence := none }, [Event.poll fence.id])
  | none => (Except.ok (), q, [])

/-! ### Memory handles (`nvmap`, src/nvmap/src/lib.rs) -/

/-- Struct `Handle`: size, raw kernel handle, dmabuf fd, and the lazily
established host mapping address. -/
structure Handle where
  size : Nat
  raw_handle : Nat
  fd : Int
  mapped_address : Option Nat
deriving DecidableEq, Repr

/-- `Handle::from_raw`: fresh handle with no host mapping. -/
def Handle.from_raw (raw_handle : Nat) (fd : Int) (size : Nat) : Handle :=
  { size := size, raw_handle := raw_handle, fd := fd, mapped_address := none }

/-- `HeapMask::CARVEOUT_GENERIC.bits()`. -/
def CARVEOUT_GENERIC : Nat := 1

/-- `AllocationFlags::HANDLE_WRITE_COMBINE.bits()`. -/
def HANDLE_WRITE_COMBINE : Nat := 1

/-- `CACHE_OPERATION_INVALIDATE`. -/
def CACHE_OPERATION_INVALIDATE : Nat := 1

/-- `CACHE_OPERATION_WRITE_BACK_INVALIDATE`. -/
def CACHE_OPERATION_WRITE_BACK_INVALIDATE : Nat := 2

/-- `NvMap::create`: the NVMAP_IOC_CREATE request followed (on ioctl
success) by the NVMAP_IOC_GET_FD request; oracle arguments give the raw
handle returned by create and the fd returned by get_fd. -/
def NvMap.create (size : Nat) (create_res : Except Errno Nat)
    (fd_res : Except Errno Int) : Except Errno Handle × List Event :=
  match create_res with
  | Except.error e => (Except.error e, [Event.nvmap_create size])
  | Except.ok raw =>
      match fd_res with
      | Except.error e =>
          (Except.error e, [Event.nvmap_create size, Event.nvmap_get_fd raw])
      | Except.ok fd =>
          (Except.ok (Handle.from_raw raw fd size),
            [Event.nvmap_create size, Event.nvmap_get_fd raw])

/-- `NvMap::allocate`: one NVMAP_IOC_ALLOC request. -/
def NvMap.allocate (h : Handle) (heap_mask flags align : Nat)
    (alloc_res : Except Errno Unit) : Except Errno Unit × List Event :=
  (alloc_res, [Event.nvmap_alloc h.raw_handle heap_mask flags align])

/-- `NvMap::map`: idempotent lazy host mapping; returns immediately if an
address is already cached, otherwise issues one mmap on the handle fd and
caches the returned address. -/
def NvMap.map (h : Handle) (mmap_res : Except Errno Nat) :
    Except Errno Handle × List Event :=
  match h.mapped_address with
  | some _ => (Except.ok h, [])
  | none =>
      match mmap_res with
      | Except.error e => (Except.error e, [Event.nvmap_mmap h.fd h.size])
      | Except.ok addr =>
          (Except.ok { h with mapped_address := some addr },
            [Event.nvmap_mmap h.fd h.size])

/-- `NvMap::unmap`: munmaps the cached address if present (clearing it),
otherwise returns success without any request. -/
def NvMap.unmap (h : Handle) (munmap_res : Except Errno Unit) :
    Except Errno Handle × List Event :=
  match h.mapped_address with
  | some _ =>
      match munmap_res with
      | Except.error e => (Except.error e, [Event.nvmap_munmap h.size])
      | Except.ok _ =>
          (Except.ok { h with mapped_address := none }, [Event.nvmap_munmap h.size])
  | none => (Except.ok h, [])

/-- `NvMap::cache_maintenance`: returns success with NO kernel request when
the handle has no host mapping; otherwise issues one NVMAP_IOC_CACHE
request for the mapped region. -/
def NvMap.cache_maintenance (h : Handle) (_offset size : Nat) (operation : Nat)
    (ioctl_res : Except Errno Unit) : Except Errno Unit × List Event :=
  match h.mapped_address with
  | none => (Except.ok (), [])
  | some _ => (ioctl_res, [Event.nvmap_cache h.raw_handle size operation])

/-- `NvMap::invalidate`. -/
def NvMap.invalidate (h : Handle) (offset size : Nat)
    (ioctl_res : Except Errno Unit) : Except Errno Unit × List Event :=
  NvMap.cache_maintenance h offset size CACHE_OPERATION_INVALIDATE ioctl_res

/-- `NvMap::writeback_invalidate`. -/
def NvMap.writeback_invalidate (h : Handle) (offset size : Nat)
    (ioctl_res : Except Errno Unit) : Except Errno Unit × List Event :=
  NvMap.cache_maintenance h offset size CACHE_OPERATION_WRITE_BACK_INVALIDATE ioctl_res

/-! ### GPU-mapped allocations (`GpuAllocated`, src/nvapp/src/utils/gpu_box.rs) -/

/-- `PAGE_SIZE` in gpu_box.rs. -/
def PAGE_SIZE : Nat := 0x1000

/-- Outcomes of the kernel steps performed by `GpuAllocated::new`. -/
structure AllocOracle where
  create_res : Except Errno Nat
  fd_res : Except Errno Int
  alloc_res : Except Errno Unit
  map_buffer_res : Except Errno Nat
deriving Repr

/-- Struct `GpuAllocated`: one owned memory handle, the fixed GPU virtual
address, and the user-requested byte size. -/
structure GpuAllocated where
  handle : Handle
  gpu_address : Nat
  user_size : Nat
deriving DecidableEq, Repr

/-- `GpuAllocated::from_raw`. -/
def GpuAllocated.from_raw (handle : Handle) (gpu_address : Nat)
    (user_size : Nat) : GpuAllocated :=
  { handle := handle, gpu_address := gpu_address, user_size := user_size }

/-- `AddressSpace::map_buffer`: one NVGPU_AS_IOCTL_MAP_BUFFER_EX request
(`flags | (1 << 8)` is applied by `map_buffer_external`); the oracle gives
the GPU virtual address chosen by the kernel. -/
def AddressSpace.map_buffer (h : Handle) (flags page_size fixed_address : Nat)
    (map_res : Except Errno Nat) : Except Errno Nat × List Event :=
  (map_res, [Event.as_map_buffer h.fd (flags ||| 1 <<< 8) page_size fixed_address])

/-- `GpuAllocated::new`: clamp alignment up to a page (with the `align as
u32` truncating cast), round the `user_size as u32` cast up to a page
multiple, then create + physically allocate the handle and map it into the
GPU address space.  Error paths return without issuing any release
request. -/
def GpuAllocated.new (user_size align : Nat) (o : AllocOracle) :
    Except Errno GpuAllocated × List Event :=
  let align := if align < PAGE_SIZE then PAGE_SIZE else align % 2 ^ 32
  let size := (user_size % 2 ^ 32 + (PAGE_SIZE - 1)) % 2 ^ 32 &&& (2 ^ 32 - PAGE_SIZE)
  match NvMap.create size o.create_res o.fd_res with
  | (Except.error e, log1) => (Except.error e, log1)
  | (Except.ok nvmap_handle, log1) =>
      match NvMap.allocate nvmap_handle CARVEOUT_GENERIC HANDLE_WRITE_COMBINE
          align o.alloc_res with
      | (Except.error e, log2) => (Except.error e, log1 ++ log2)
      | (Except.ok _, log2) =>
          match AddressSpace.map_buffer nvmap_handle 0 PAGE_SIZE 0 o.map_buffer_res with
          | (Except.error e, log3) => (Except.error e, log1 ++ log2 ++ log3)
          | (Except.ok gpu_address, log3) =>
              (Except.ok (GpuAllocated.from_raw nvmap_handle gpu_address user_size),
                log1 ++ log2 ++ log3)

/-- `GpuAllocated::map_array_mut` (host-mapping part): locks the handle and
lazily establishes the host mapping; the data copy that follows in the Rust
code touches no kernel interface and no tracked state. -/
def GpuAllocated.map_for_copy (a : GpuAllocated) (mmap_res : Except Errno Nat) :
    Except Errno GpuAllocated × List Event :=
  match NvMap.map a.handle mmap_res with
  | (Except.error e, log) => (Except.error e, log)
  | (Except.ok h, log) => (Except.ok { a with handle := h }, log)

/-- `GpuAllocated::unmap`. -/
def GpuAllocated.unmap (a : GpuAllocated) (munmap_res : Except Errno Unit) :
    Except Errno GpuAllocated × List Event :=
  match NvMap.unmap a.handle munmap_res with
  | (Except.error e, log) => (Except.error e, log)
  | (Except.ok h, log) => (Except.ok { a with handle := h }, log)

/-- `GpuAllocated::invalidate`: cache-invalidate the whole backing size. -/
def GpuAllocated.invalidate (a : GpuAllocated) (ioctl_res : Except Errno Unit) :
    Except Errno Unit × List Event :=
  NvMap.invalidate a.handle 0 a.handle.size ioctl_res

/-- `GpuAllocated::flush`: writeback-invalidate the whole backing size. -/
def GpuAllocated.flush (a : GpuAllocated) (ioctl_res : Except Errno Unit) :
    Except Errno Unit × List Event :=
  NvMap.writeback_invalidate a.handle 0 a.handle.size ioctl_res

/-! ### Command stream (src/nvapp/src/utils/command_stream.rs) -/

/-- A flush either propagates a kernel errno or aborts on a Rust panic
(the ring-capacity `panic!` inside `GpFifoQueue::append`). -/
inductive StreamError where
  | errno (e : Errno)
  | panicked (msg : String)
deriving DecidableEq, Repr

/-- Outcomes of the kernel steps performed by `CommandStream::flush`, in
pipeline order: buffer allocation, host mapping, cache flush, unmap,
submission. -/
structure FlushOracle where
  alloc : AllocOracle
  mmap_res : Except Errno Nat
  cache_res : Except Errno Unit
  munmap_res : Except Errno Unit
  submit_res : Except Errno RawFence
deriving Repr

/-- Struct `CommandStream`: ring queue, insertion-ordered pending command
list, and the in-flight buffers kept alive during GPU processing. -/
structure CommandStream where
  fifo : GpFifoQueue
  command_list : List Command
  in_process : List GpuAllocated
deriving DecidableEq, Repr

/-- `CommandStream::new`. -/
def CommandStream.new : CommandStream :=
  { fifo := GpFifoQueue.new, command_list := [], in_process := [] }

/-- `CommandStream::push`: appends to the pending list, always `Ok`. -/
def CommandStream.push (s : CommandStream) (command : Command) :
    Except Errno Unit × CommandStream :=
  (Except.ok (), { s with command_list := s.command_list ++ [command] })

/-- `CommandStream::flush`: drain the pending list into one word array,
allocate a GPU buffer of `4 * word_count` bytes, host-map it (the word copy
follows), cache-flush it, unmap it, register one ring entry of
`user_size / 4` words, retain the buffer in `in_process`, submit.  Each
`?` returns the error with the state mutated so far; the drain happens
first, so the pending list is empty afterwards in every case. -/
def CommandStream.flush (s : CommandStream) (o : FlushOracle) :
    Except StreamError Unit × CommandStream × List Event :=
  let commands := (s.command_list.map Command.into_vec).flatten
  let s := { s with command_list := [] }
  match GpuAllocated.new (commands.length * 4) 0x20000 o.alloc with
  | (Except.error e, log1) => (Except.error (StreamError.errno e), s, log1)
  | (Except.ok commands_gpu, log1) =>
      match commands_gpu.map_for_copy o.mmap_res with
      | (Except.error e, log2) =>
          (Except.error (StreamError.errno e), s, log1 ++ log2)
      | (Except.ok commands_gpu, log2) =>
          match commands_gpu.flush o.cache_res with
          | (Except.error e, log3) =>
              (Except.error (StreamError.errno e), s, log1 ++ log2 ++ log3)
          | (Except.ok _, log3) =>
              match commands_gpu.unmap o.munmap_res with
              | (Except.error e, log4) =>
                  (Except.error (StreamError.errno e), s, log1 ++ log2 ++ log3 ++ log4)
              | (Except.ok commands_gpu, log4) =>
                  match s.fifo.append commands_gpu.gpu_address
                      (commands_gpu.user_size / 4) 0 with
                  | Except.error msg =>
                      (Except.error (StreamError.panicked msg), s,
                        log1 ++ log2 ++ log3 ++ log4)
                  | Except.ok fifo =>
                      let log5 := [Event.ring_append
                        (commands_gpu.gpu_address |||
                          commands_gpu.user_size / 4 * 2 ^ 42 % 2 ^ 64)]
                      let s := { s with
                        fifo := fifo,
                        in_process := s.in_process ++ [commands_gpu] }
                      match s.fifo.submit o.submit_res with
                      | (Except.error e, fifo, log6) =>
                          (Except.error (StreamError.errno e), { s with fifo := fifo },
                            log1 ++ log2 ++ log3 ++ log4 ++ log5 ++ log6)
                      | (Except.ok _, fifo, log6) =>
                          (Except.ok (), { s with fifo := fifo },
                            log1 ++ log2 ++ log3 ++ log4 ++ log5 ++ log6)

/-! ### Derived definitions used by the specification statements -/

/-- Little-endian word packing as the specification describes it: word `i`
is the little-endian combination of bytes `4*i .. 4*i+3`, positions beyond
the data reading as zero. -/
def le_words (data : List Nat) : List Nat :=
  (List.range ((data.length + 3) / 4)).map fun i =>
    data.getD (i * 4) 0 + data.getD (i * 4 + 1) 0 * 2 ^ 8
      + data.getD (i * 4 + 2) 0 * 2 ^ 16 + data.getD (i * 4 + 3) 0 * 2 ^ 24

/-- Iterate `GpFifoQueue::append` `n` times, the i-th call using address
and word count `f i`, stopping at the first failure. -/
def GpFifoQueue.append_times (q : GpFifoQueue) (f : Nat → Nat × Nat) :
    Nat → Except String GpFifoQueue
  | 0 => Except.ok q
  | n + 1 =>
      match GpFifoQueue.append_times q f n with
      | Except.error e => Except.error e
      | Except.ok q2 => q2.append (f n).1 (f n).2 0

/-- Number of completion fences currently tracked by the ring queue. -/
def GpFifoQueue.fence_count (q : GpFifoQueue) : Nat :=
  match q.waiting_fence with
  | some _ => 1
  | none => 0

/-- Ring-queue states reachable through its public operations. -/
inductive GpFifoQueue.Reachable : GpFifoQueue → Prop where
  | new : GpFifoQueue.Reachable GpFifoQueue.new
  | append (q q' : GpFifoQueue) (a c fl : Nat) : GpFifoQueue.Reachable q →
      q.append a c fl = Except.ok q' → GpFifoQueue.Reachable q'
  | submit (q : GpFifoQueue) (r : Except Errno RawFence) :
      GpFifoQueue.Reachable q → GpFifoQueue.Reachable (q.submit r).2.1
  | wait_idle (q : GpFifoQueue) (r : Except Errno Unit) :
      GpFifoQueue.Reachable q → GpFifoQueue.Reachable (q.wait_idle r).2.1

/-- Recognizer for ring-registration events. -/
def Event.is_ring_append : Event → Bool
  | Event.ring_append _ => true
  | _ => false

/-- Recognizer for kernel submission requests. -/
def Event.is_channel_submit : Event → Bool
  | Event.channel_submit _ _ _ => true
  | _ => false

/-- Recognizer for NVMAP_IOC_FREE requests. -/
def Event.is_nvmap_free : Event → Bool
  | Event.nvmap_free _ => true
  | _ => false

/-- Recognizer for NVMAP_IOC_CREATE requests. -/
def Event.is_nvmap_create : Event → Bool
  | Event.nvmap_create _ => true
  | _ => false

/-- Boolean success recognizer for embedded fallible results. -/
def except_is_ok : Except ε α → Bool
  | Except.ok _ => true
  | Except.error _ => false

/-- A flush oracle in which every kernel step succeeds. -/
def ok_flush_oracle (raw : Nat) (fd : Int) (gaddr maddr : Nat)
    (fence_out : RawFence) : FlushOracle :=
  { alloc := { create_res := Except.ok raw, fd_res := Except.ok fd,
               alloc_res := Except.ok (), map_buffer_res := Except.ok gaddr },
    mmap_res := Except.ok maddr, cache_res := Except.ok (),
    munmap_res := Except.ok (), submit_res := Except.ok fence_out }

/-- A flush oracle in which every kernel step succeeds except the final
gpfifo submission, which fails with errno `e`. -/
def submit_fail_oracle (raw : Nat) (fd : Int) (gaddr maddr : Nat)
    (e : Errno) : FlushOracle :=
  { alloc := { create_res := Except.ok raw, fd_res := Except.ok fd,
               alloc_res := Except.ok (), map_buffer_res := Except.ok gaddr },
    mmap_res := Except.ok maddr, cache_res := Except.ok (),
    munmap_res := Except.ok (), submit_res := Except.error e }

/-- A command stream holding one pending one-word command, a representative
input for flush-pipeline statements. -/
def example_stream : CommandStream :=
  (CommandStream.new.push (Command.new_raw 0x107 4 CommandSubmissionMode.Increasing)).2

/-! ## Theorems -/

/-! ### Helper lemmas -/

/-- Folding `push_argument` over a list on a non-Inline command never
panics and appends the mapped words in order. -/
theorem foldlM_push_argument (l : List Nat) (f : Nat → Nat) (c : Command)
    (hmode : c.submission_mode ≠ CommandSubmissionMode.Inline) :
    l.foldlM (fun acc i => Command.push_argument acc (f i)) c
      = Except.ok { c with arguments := c.arguments ++ l.map f } := by
  induction l generalizing c with
  | nil => simp [pure, Except.pure]
  | cons x xs ih =>
      have hpush : Command.push_argument c (f x)
          = Except.ok { c with arguments := c.arguments ++ [f x] } := by
        simp [Command.push_argument, hmode]
      have hmode2 : ({ c with arguments := c.arguments ++ [f x] } : Command).submission_mode
          ≠ CommandSubmissionMode.Inline := hmode
      simp [List.foldlM_cons, hpush, Bind.bind, Except.bind, ih _ hmode2]

/-- Indexing with default into `take` of `drop`. -/
theorem getD_drop_take (data : List Nat) (s t k : Nat) :
    ((data.drop s).take t).getD k 0 = if k < t then data.getD (s + k) 0 else 0 := by
  by_cases h : k < t
  · simp only [h, if_true]
    rw [List.getD_eq_getElem?_getD, List.getD_eq_getElem?_getD,
      List.getElem?_take, List.getElem?_drop]
    simp [h]
  · simp only [h, if_false]
    have hlen : ((data.drop s).take t).length ≤ k := by
      have := List.length_take t (data.drop s)
      omega
    simp [List.getD_eq_getElem?_getD, List.getElem?_eq_none hlen]

/-! ### Claim C5 -/

/-- Claim C5: for every (method, sub_channel, mode) triple within its bit
width, `Command::new_raw` places the method in bits [12:0], the sub-channel
in bits [15:13] and the mode tag in bits [31:29] of the header word, with
tag values IncreasingOld=0, Increasing=1, NonIncreasingOld=2,
NonIncreasing=3, Inline=4, IncreasingOnce=5; reading those bit ranges back
recovers the original triple (the tag map being injective). -/
theorem header_encode_decode_roundtrip (method sub_channel : Nat)
    (mode : CommandSubmissionMode)
    (hm : method < 2 ^ 13) (hs : sub_channel < 2 ^ 3) :
    ((Command.new_raw method sub_channel mode).entry.method = method ∧
     (Command.new_raw method sub_channel mode).entry.sub_channel = sub_channel ∧
     (Command.new_raw method sub_channel mode).entry.submission_mode
       = submission_mode_id mode) ∧
    (submission_mode_id CommandSubmissionMode.IncreasingOld = 0 ∧
     submission_mode_id CommandSubmissionMode.Increasing = 1 ∧
     submission_mode_id CommandSubmissionMode.NonIncreasingOld = 2 ∧
     submission_mode_id CommandSubmissionMode.NonIncreasing = 3 ∧
     submission_mode_id CommandSubmissionMode.Inline = 4 ∧
     submission_mode_id CommandSubmissionMode.IncreasingOnce = 5) ∧
    (∀ m1 m2 : CommandSubmissionMode,
      submission_mode_id m1 = submission_mode_id m2 → m1 = m2) := by
  refine ⟨?_, by decide, ?_⟩
  · cases mode <;>
      simp [Command.new_raw, GpFifoEntry.set_method, GpFifoEntry.set_sub_channel,
        GpFifoEntry.set_submission_mode, GpFifoEntry.method, GpFifoEntry.sub_channel,
        GpFifoEntry.submission_mode, bit_range_set, bit_range_get,
        submission_mode_id] <;>
      omega
  · intro m1 m2 h
    cases m1 <;> cases m2 <;> simp_all [submission_mode_id]

/-- Witness for C5 at a concrete triple. -/
theorem header_encode_decode_roundtrip_witness :
    (Command.new_raw 0x1C5 4 CommandSubmissionMode.Increasing).entry.method = 0x1C5 ∧
    (Command.new_raw 0x1C5 4 CommandSubmissionMode.Increasing).entry.sub_channel = 4 ∧
    (Command.new_raw 0x1C5 4 CommandSubmissionMode.Increasing).entry.submission_mode
      = submission_mode_id CommandSubmissionMode.Increasing :=
  (header_encode_decode_roundtrip 0x1C5 4 CommandSubmissionMode.Increasing
    (by decide) (by decide)).1

/-! ### Claim C2 -/

/-- Claim C2 (failing evaluation): the Inline-mode command
`Command::new_inline(0x107, DirectMemoryAccess, 1)` — the "lines = 1"
command of `memcpy_1d` — carries immediate 1 in bits [26:16] of its header,
but `into_vec()` finalizes `argument_count` (the same bit range) to the
length 0 of the empty argument list, so the single emitted word is
0x80008107 whose immediate field is 0, not 1. -/
theorem into_vec_inline_drops_immediate :
    (Command.new_inline 0x107 SubChannelId.DirectMemoryAccess 1).entry.inline_arguments
      = 1 ∧
    (Command.new_inline 0x107 SubChannelId.DirectMemoryAccess 1).into_vec
      = [0x80008107] ∧
    GpFifoEntry.inline_arguments 0x80008107 = 0 := by
  decide

/-! ### Claim C9 -/

/-- Claim C9: on a non-Inline command, `push_address(addr)` appends exactly
the two words `(addr >> 32) as u32` and `addr as u32`, high half first, both
32-bit, and `(word0 << 32) | word1` reassembles `addr`. -/
theorem push_address_high_then_low (c : Command) (address : Nat)
    (hmode : c.submission_mode ≠ CommandSubmissionMode.Inline)
    (haddr : address < 2 ^ 64) :
    c.push_address address
      = Except.ok { c with arguments :=
          c.arguments ++ [address / 2 ^ 32, address % 2 ^ 32] } ∧
    address / 2 ^ 32 < 2 ^ 32 ∧ address % 2 ^ 32 < 2 ^ 32 ∧
    (address / 2 ^ 32) <<< 32 ||| address % 2 ^ 32 = address := by
  refine ⟨?_, by omega, by omega, ?_⟩
  · have h1 : Command.push_argument c (address / 2 ^ 32)
        = Except.ok { c with arguments := c.arguments ++ [address / 2 ^ 32] } := by
      simp [Command.push_argument, hmode]
    have hmode2 : ({ c with arguments := c.arguments ++ [address / 2 ^ 32] } :
        Command).submission_mode ≠ CommandSubmissionMode.Inline := hmode
    simp [Command.push_address, h1, Bind.bind, Except.bind,
      Command.push_argument, hmode2]
  · have hb : address % 2 ^ 32 < 2 ^ 32 := by omega
    have h2 := Nat.mul_add_lt_is_or hb (address / 2 ^ 32)
    rw [Nat.shiftLeft_eq, Nat.mul_comm (address / 2 ^ 32) (2 ^ 32), ← h2]
    omega

/-- Witness for C9 at a concrete command and address. -/
theorem push_address_high_then_low_witness :
    (Command.new_raw 0x1C5 4 CommandSubmissionMode.Increasing).push_address
        0x123456789ABCDEF0
      = Except.ok { Command.new_raw 0x1C5 4 CommandSubmissionMode.Increasing with
          arguments :=
            (Command.new_raw 0x1C5 4 CommandSubmissionMode.Increasing).arguments
              ++ [0x123456789ABCDEF0 / 2 ^ 32, 0x123456789ABCDEF0 % 2 ^ 32] } :=
  (push_address_high_then_low (Command.new_raw 0x1C5 4 CommandSubmissionMode.Increasing)
    0x123456789ABCDEF0 (by decide) (by decide)).1

/-! ### Claim C8 -/

/-- Claim C8: on a non-Inline command, `push_inlined_buffer(data)` succeeds
and appends exactly `ceil(len/4)` words, word `i` being the little-endian
packing of bytes `4*i .. 4*i+3` with the final partial word zero-padded;
in particular `[1,2,3,4,5,6]` packs to two words `0x04030201, 0x0605` (the
second with zero upper 16 bits) and `[]` packs to no words. -/
theorem push_inlined_buffer_packs_le_words (c : Command) (data : List Nat)
    (hmode : c.submission_mode ≠ CommandSubmissionMode.Inline) :
    c.push_inlined_buffer data
      = Except.ok { c with arguments := c.arguments ++ le_words data } ∧
    (le_words data).length = (data.length + 3) / 4 ∧
    le_words [1, 2, 3, 4, 5, 6] = [0x04030201, 0x0605] ∧
    (le_words [1, 2, 3, 4, 5, 6]).getD 1 0 < 2 ^ 16 ∧
    le_words ([] : List Nat) = [] := by
  refine ⟨?_, by simp [le_words], by decide, by decide, by decide⟩
  rw [Command.push_inlined_buffer]
  have hbody : (fun (acc : Command) (i : Nat) =>
      if i = (data.length + 3) / 4 - 1 ∧ data.length % 4 ≠ 0 then
        acc.push_argument (u32_from_le_bytes ((data.drop (i * 4)).take (data.length % 4)))
      else acc.push_argument (u32_from_le_bytes ((data.drop (i * 4)).take 4)))
      = fun (acc : Command) (i : Nat) => acc.push_argument
          (if i = (data.length + 3) / 4 - 1 ∧ data.length % 4 ≠ 0 then
            u32_from_le_bytes ((data.drop (i * 4)).take (data.length % 4))
          else u32_from_le_bytes ((data.drop (i * 4)).take 4)) := by
    funext acc i
    by_cases h : i = (data.length + 3) / 4 - 1 ∧ data.length % 4 ≠ 0 <;> simp [h]
  rw [hbody, foldlM_push_argument _ _ _ hmode]
  congr 1
  congr 1
  congr 1
  rw [le_words]
  apply List.map_congr_left
  intro i hi
  rw [List.mem_range] at hi
  by_cases hlast : i = (data.length + 3) / 4 - 1 ∧ data.length % 4 ≠ 0
  · rw [if_pos hlast]
    obtain ⟨hi_eq, hrest⟩ := hlast
    have hlen : data.length = i * 4 + data.length % 4 := by omega
    have hterm : ∀ k : Nat, ¬ k < data.length % 4 → (data[i * 4 + k]?).getD 0 = 0 := by
      intro k hk
      rw [List.getElem?_eq_none (by omega)]
      rfl
    simp only [u32_from_le_bytes, getD_drop_take]
    rcases (by omega :
        data.length % 4 = 1 ∨ data.length % 4 = 2 ∨ data.length % 4 = 3) with
      hr | hr | hr
    · rw [hr]
      norm_num
      rw [hterm 1 (by omega), hterm 2 (by omega), hterm 3 (by omega)]
      norm_num
    · rw [hr]
      norm_num
      rw [hterm 2 (by omega), hterm 3 (by omega)]
      norm_num
    · rw [hr]
      norm_num
      rw [hterm 3 (by omega)]
  · rw [if_neg hlast]
    simp only [u32_from_le_bytes, getD_drop_take]
    norm_num

/-- Witness for C8 at `[1,2,3,4,5,6]` on a non-Inline command. -/
theorem push_inlined_buffer_packs_le_words_witness :
    (Command.new_raw 0x1C5 4 CommandSubmissionMode.Increasing).push_inlined_buffer
        [1, 2, 3, 4, 5, 6]
      = Except.ok { Command.new_raw 0x1C5 4 CommandSubmissionMode.Increasing with
          arguments :=
            (Command.new_raw 0x1C5 4 CommandSubmissionMode.Increasing).arguments
              ++ le_words [1, 2, 3, 4, 5, 6] } :=
  (push_inlined_buffer_packs_le_words
    (Command.new_raw 0x1C5 4 CommandSubmissionMode.Increasing)
    [1, 2, 3, 4, 5, 6] (by decide)).1

/-! ### Claim C7 -/

/-- Unfolding equation for one iteration step of `append_times`. -/
theorem append_times_succ (q : GpFifoQueue) (f : Nat → Nat × Nat) (n : Nat) :
    q.append_times f (n + 1)
      = match q.append_times f n with
        | Except.error e => Except.error e
        | Except.ok q2 => q2.append (f n).1 (f n).2 0 := rfl

/-- Helper: while capacity remains, iterated appends succeed, each adding
one entry and leaving the fence untouched. -/
theorem append_times_ok (q : GpFifoQueue) (f : Nat → Nat × Nat) (n : Nat)
    (h : q.entries.length + n ≤ GPFIFO_QUEUE_SIZE) :
    ∃ q2, q.append_times f n = Except.ok q2 ∧
      q2.entries.length = q.entries.length + n ∧
      q2.waiting_fence = q.waiting_fence := by
  induction n with
  | zero => exact ⟨q, rfl, rfl, rfl⟩
  | succ n ih =>
      obtain ⟨q2, hq2, hlen, hf⟩ := ih (by omega)
      have happ : q2.append (f n).1 (f n).2 0
          = Except.ok { q2 with entries :=
              q2.entries ++ [(f n).1 ||| (f n).2 * 2 ^ 42 % 2 ^ 64] } := by
        rw [GpFifoQueue.append, if_neg (by omega)]
      refine ⟨{ q2 with entries :=
          q2.entries ++ [(f n).1 ||| (f n).2 * 2 ^ 42 % 2 ^ 64] }, ?_, ?_, ?_⟩
      · rw [append_times_succ, hq2]
        exact happ
      · simp only [List.length_append, List.length_cons, List.length_nil]
        omega
      · exact hf

/-- Claim C7: from an empty ring, `append` succeeds `GPFIFO_QUEUE_SIZE`
(2048) times in a row, the 2049-th call without an intervening submit
fails (the Rust `panic!`), and in general one `append` succeeds exactly
when the cursor is still below capacity. -/
theorem ring_append_capacity (f : Nat → Nat × Nat) :
    (∃ q2, GpFifoQueue.new.append_times f GPFIFO_QUEUE_SIZE = Except.ok q2) ∧
    (∀ q2, GpFifoQueue.new.append_times f (GPFIFO_QUEUE_SIZE + 1) ≠ Except.ok q2) ∧
    (∀ (q : GpFifoQueue) (a c fl : Nat),
      (∃ q2, q.append a c fl = Except.ok q2) ↔ q.entries.length < GPFIFO_QUEUE_SIZE) := by
  have hnew : GpFifoQueue.new.entries.length + GPFIFO_QUEUE_SIZE ≤ GPFIFO_QUEUE_SIZE := by
    simp [GpFifoQueue.new]
  refine ⟨?_, ?_, ?_⟩
  · obtain ⟨q2, hq2, _, _⟩ := append_times_ok GpFifoQueue.new f GPFIFO_QUEUE_SIZE hnew
    exact ⟨q2, hq2⟩
  · intro q2
    obtain ⟨q1, hq1, hlen, _⟩ := append_times_ok GpFifoQueue.new f GPFIFO_QUEUE_SIZE hnew
    have hfull : q1.entries.length ≥ GPFIFO_QUEUE_SIZE := by
      simp [GpFifoQueue.new] at hlen
      omega
    rw [append_times_succ, hq1]
    show q1.append (f GPFIFO_QUEUE_SIZE).1 (f GPFIFO_QUEUE_SIZE).2 0 ≠ Except.ok q2
    rw [GpFifoQueue.append, if_pos hfull]
    exact fun h => Except.noConfusion h
  · intro q a c fl
    constructor
    · rintro ⟨q2, hq2⟩
      by_contra hge
      rw [GpFifoQueue.append, if_pos (by omega)] at hq2
      exact Except.noConfusion hq2
    · intro hlt
      exact ⟨_, by rw [GpFifoQueue.append, if_neg (by omega)]⟩

/-! ### Claim C4 -/

/-- Claim C4: the ring queue tracks at most one fence in every reachable
state; a successful `submit` issues exactly one kernel submission whose
wait-fence argument is the previously stored fence (with the wait flag,
bit 0, set exactly when one was stored, and the kernel default fence
otherwise), stores the kernel-returned fence in its place and resets the
cursor to zero. -/
theorem ring_tracks_single_fence (q : GpFifoQueue) (fence_out f0 : RawFence) :
    (∀ q2 : GpFifoQueue, q2.Reachable → q2.fence_count ≤ 1) ∧
    (q.submit (Except.ok fence_out)).1 = Except.ok () ∧
    (q.submit (Except.ok fence_out)).2.1.waiting_fence = some fence_out ∧
    (q.submit (Except.ok fence_out)).2.1.entries = [] ∧
    (q.waiting_fence = some f0 →
      (q.submit (Except.ok fence_out)).2.2
        = [Event.channel_submit q.entries f0 11]) ∧
    (q.waiting_fence = none →
      (q.submit (Except.ok fence_out)).2.2
        = [Event.channel_submit q.entries { id := -1, value := 0xFFFFFFFF } 10]) := by
  constructor
  · intro q2 _
    unfold GpFifoQueue.fence_count
    cases q2.waiting_fence <;> simp
  · cases hq : q.waiting_fence <;>
      simp [GpFifoQueue.submit, Channel.submit_gpfifo, hq] <;>
      intro h <;> simp [h]

/-- Witness for C4: submit on the fresh queue with a concrete kernel fence. -/
theorem ring_tracks_single_fence_witness :
    GpFifoQueue.new.fence_count ≤ 1 ∧
    (GpFifoQueue.new.submit (Except.ok { id := 3, value := 7 })).1 = Except.ok () ∧
    (GpFifoQueue.new.submit (Except.ok { id := 3, value := 7 })).2.1.waiting_fence
      = some { id := 3, value := 7 } ∧
    (GpFifoQueue.new.submit (Except.ok { id := 3, value := 7 })).2.2
      = [Event.channel_submit [] { id := -1, value := 0xFFFFFFFF } 10] :=
  ⟨(ring_tracks_single_fence GpFifoQueue.new { id := 3, value := 7 }
      { id := 0, value := 0 }).1 GpFifoQueue.new GpFifoQueue.Reachable.new,
   (ring_tracks_single_fence GpFifoQueue.new { id := 3, value := 7 }
      { id := 0, value := 0 }).2.1,
   (ring_tracks_single_fence GpFifoQueue.new { id := 3, value := 7 }
      { id := 0, value := 0 }).2.2.1,
   (ring_tracks_single_fence GpFifoQueue.new { id := 3, value := 7 }
      { id := 0, value := 0 }).2.2.2.2.2 rfl⟩

/-! ### Claim C10 -/

/-- Claim C10: on an allocation whose backing handle has no host mapping,
`flush()` and `invalidate()` return success while issuing no kernel
cache-maintenance request at all. -/
theorem cache_maintenance_skipped_without_mapping (a : GpuAllocated)
    (r1 r2 : Except Errno Unit) (h : a.handle.mapped_address = none) :
    a.flush r1 = (Except.ok (), []) ∧ a.invalidate r2 = (Except.ok (), []) := by
  unfold GpuAllocated.flush GpuAllocated.invalidate NvMap.writeback_invalidate
    NvMap.invalidate NvMap.cache_maintenance
  rw [h]
  exact ⟨rfl, rfl⟩

/-- Witness for C10 on a concrete never-mapped allocation. -/
theorem cache_maintenance_skipped_without_mapping_witness :
    (GpuAllocated.from_raw (Handle.from_raw 7 9 4096) 0x100000 4096).flush
        (Except.error 5)
      = (Except.ok (), []) ∧
    (GpuAllocated.from_raw (Handle.from_raw 7 9 4096) 0x100000 4096).invalidate
        (Except.error 5)
      = (Except.ok (), []) :=
  cache_maintenance_skipped_without_mapping
    (GpuAllocated.from_raw (Handle.from_raw 7 9 4096) 0x100000 4096)
    (Except.error 5) (Except.error 5) rfl

/-! ### Claim C6 -/

/-- Claim C6 (refuting instance): when handle creation and physical
allocation succeed but the GPU mapping step fails, `GpuAllocated::new`
returns the mapping error while the created handle is NOT released: the
request log contains the create request and no NVMAP_IOC_FREE request. -/
theorem gpu_new_map_failure_leaves_handle :
    (GpuAllocated.new 4096 0x1000
        { create_res := Except.ok 7, fd_res := Except.ok 9,
          alloc_res := Except.ok (), map_buffer_res := Except.error 12 }).1
      = Except.error 12 ∧
    Event.nvmap_create 4096 ∈ (GpuAllocated.new 4096 0x1000
        { create_res := Except.ok 7, fd_res := Except.ok 9,
          alloc_res := Except.ok (), map_buffer_res := Except.error 12 }).2 ∧
    (GpuAllocated.new 4096 0x1000
        { create_res := Except.ok 7, fd_res := Except.ok 9,
          alloc_res := Except.ok (), map_buffer_res := Except.error 12 }).2.countP
      Event.is_nvmap_free = 0 := by
  decide

/-- Claim C6 (amended): when a later kernel step of `GpuAllocated::new`
fails after the memory handle was created and allocated, the error is
returned but the handle is not released — indeed no call of
`GpuAllocated::new` ever issues an NVMAP_IOC_FREE request, so the handle
created by the failed call leaks. -/
theorem gpu_allocated_new_never_frees (user_size align : Nat) (o : AllocOracle)
    (raw : Nat) (fd : Int) (e : Errno)
    (hc : o.create_res = Except.ok raw) (hf : o.fd_res = Except.ok fd)
    (ha : o.alloc_res = Except.ok ()) (hm : o.map_buffer_res = Except.error e) :
    (GpuAllocated.new user_size align o).1 = Except.error e ∧
    Event.nvmap_create
        ((user_size % 2 ^ 32 + (PAGE_SIZE - 1)) % 2 ^ 32 &&& (2 ^ 32 - PAGE_SIZE))
      ∈ (GpuAllocated.new user_size align o).2 ∧
    (∀ o2 : AllocOracle,
      (GpuAllocated.new user_size align o2).2.countP Event.is_nvmap_free = 0) := by
  refine ⟨?_, ?_, ?_⟩
  · simp [GpuAllocated.new, NvMap.create, NvMap.allocate, AddressSpace.map_buffer,
      hc, hf, ha, hm]
  · simp [GpuAllocated.new, NvMap.create, NvMap.allocate, AddressSpace.map_buffer,
      hc, hf, ha, hm]
  · intro o2
    obtain ⟨cr, fdr, ar, mr⟩ := o2
    cases cr <;> cases fdr <;> cases ar <;> cases mr <;>
      simp [GpuAllocated.new, NvMap.create, NvMap.allocate, AddressSpace.map_buffer,
        Event.is_nvmap_free]

/-- Witness for the amended C6 at a concrete failing oracle. -/
theorem gpu_allocated_new_never_frees_witness :
    (GpuAllocated.new 4096 0x1000
        { create_res := Except.ok 7, fd_res := Except.ok 9,
          alloc_res := Except.ok (), map_buffer_res := Except.error 12 }).1
      = Except.error 12 ∧
    Event.nvmap_create
        ((4096 % 2 ^ 32 + (PAGE_SIZE - 1)) % 2 ^ 32 &&& (2 ^ 32 - PAGE_SIZE))
      ∈ (GpuAllocated.new 4096 0x1000
          { create_res := Except.ok 7, fd_res := Except.ok 9,
            alloc_res := Except.ok (), map_buffer_res := Except.error 12 }).2 :=
  ⟨(gpu_allocated_new_never_frees 4096 0x1000
      { create_res := Except.ok 7, fd_res := Except.ok 9,
        alloc_res := Except.ok (), map_buffer_res := Except.error 12 }
      7 9 12 rfl rfl rfl rfl).1,
   (gpu_allocated_new_never_frees 4096 0x1000
      { create_res := Except.ok 7, fd_res := Except.ok 9,
        alloc_res := Except.ok (), map_buffer_res := Except.error 12 }
      7 9 12 rfl rfl rfl rfl).2.1⟩

/-! ### Claim C1 -/

/-- Claim C1 (refuting instance): `flush()` on a stream with an EMPTY
pending list, with every kernel step succeeding, returns success but is no
no-op: it issues a buffer allocation (NVMAP_IOC_CREATE of the zero-sized
rounded buffer), registers one ring entry, performs one kernel ring
submission, replaces the tracked fence and grows the in-flight list. -/
theorem flush_empty_list_submits :
    (CommandStream.new.flush
        (ok_flush_oracle 7 9 0x100000 0x7000 { id := 5, value := 42 })).1
      = Except.ok () ∧
    (CommandStream.new.flush
        (ok_flush_oracle 7 9 0x100000 0x7000 { id := 5, value := 42 })).2.2.countP
      Event.is_channel_submit = 1 ∧
    (CommandStream.new.flush
        (ok_flush_oracle 7 9 0x100000 0x7000 { id := 5, value := 42 })).2.2.countP
      Event.is_ring_append = 1 ∧
    (CommandStream.new.flush
        (ok_flush_oracle 7 9 0x100000 0x7000 { id := 5, value := 42 })).2.2.countP
      Event.is_nvmap_create = 1 ∧
    (CommandStream.new.flush
        (ok_flush_oracle 7 9 0x100000 0x7000 { id := 5, value := 42 })).2.1.fifo.waiting_fence
      = some { id := 5, value := 42 } ∧
    (CommandStream.new.flush
        (ok_flush_oracle 7 9 0x100000 0x7000 { id := 5, value := 42 })).2.1.in_process.length
      = 1 := by
  decide

/-- Claim C1 (amended): with an empty pending list and every kernel step
succeeding, `flush()` returns success but runs the full pipeline: it
allocates a zero-sized GPU buffer, registers exactly one ring entry,
performs exactly one kernel submission, stores the new fence and retains
the buffer in the in-flight list; the pending list stays empty. -/
theorem flush_empty_runs_full_pipeline (s : CommandStream) (raw : Nat) (fd : Int)
    (gaddr maddr : Nat) (fence_out : RawFence)
    (hempty : s.command_list = [])
    (hcap : s.fifo.entries.length < GPFIFO_QUEUE_SIZE) :
    (s.flush (ok_flush_oracle raw fd gaddr maddr fence_out)).1 = Except.ok () ∧
    (s.flush (ok_flush_oracle raw fd gaddr maddr fence_out)).2.2.countP
      Event.is_channel_submit = 1 ∧
    (s.flush (ok_flush_oracle raw fd gaddr maddr fence_out)).2.2.countP
      Event.is_ring_append = 1 ∧
    Event.nvmap_create 0 ∈ (s.flush (ok_flush_oracle raw fd gaddr maddr fence_out)).2.2 ∧
    (s.flush (ok_flush_oracle raw fd gaddr maddr fence_out)).2.1.command_list = [] ∧
    (s.flush (ok_flush_oracle raw fd gaddr maddr fence_out)).2.1.in_process.length
      = s.in_process.length + 1 ∧
    (s.flush (ok_flush_oracle raw fd gaddr maddr fence_out)).2.1.fifo.waiting_fence
      = some fence_out := by
  have hncap : ¬ s.fifo.entries.length ≥ GPFIFO_QUEUE_SIZE := by omega
  have hand : (4095 : Nat) &&& 4294963200 = 0 := by decide
  have h11 : (11 : Nat) &&& 2 = 2 := by decide
  have h10 : (10 : Nat) &&& 2 = 2 := by decide
  cases hval : s.fifo.waiting_fence <;>
    simp [CommandStream.flush, ok_flush_oracle, GpuAllocated.new, NvMap.create,
      NvMap.allocate, AddressSpace.map_buffer, GpuAllocated.from_raw, Handle.from_raw,
      GpuAllocated.map_for_copy, NvMap.map, GpuAllocated.flush,
      NvMap.writeback_invalidate, NvMap.cache_maintenance, GpuAllocated.unmap,
      NvMap.unmap, GpFifoQueue.append, GpFifoQueue.submit, Channel.submit_gpfifo,
      PAGE_SIZE, hempty, hncap, hval, hand, h11, h10, Event.is_channel_submit,
      Event.is_ring_append, List.countP_cons]

/-- Witness for the amended C1 on the fresh stream. -/
theorem flush_empty_runs_full_pipeline_witness :
    (CommandStream.new.flush
        (ok_flush_oracle 7 9 0x100000 0x7000 { id := 5, value := 42 })).1
      = Except.ok () ∧
    (CommandStream.new.flush
        (ok_flush_oracle 7 9 0x100000 0x7000 { id := 5, value := 42 })).2.2.countP
      Event.is_channel_submit = 1 ∧
    (CommandStream.new.flush
        (ok_flush_oracle 7 9 0x100000 0x7000 { id := 5, value := 42 })).2.2.countP
      Event.is_ring_append = 1 ∧
    Event.nvmap_create 0 ∈ (CommandStream.new.flush
        (ok_flush_oracle 7 9 0x100000 0x7000 { id := 5, value := 42 })).2.2 ∧
    (CommandStream.new.flush
        (ok_flush_oracle 7 9 0x100000 0x7000 { id := 5, value := 42 })).2.1.command_list
      = [] ∧
    (CommandStream.new.flush
        (ok_flush_oracle 7 9 0x100000 0x7000 { id := 5, value := 42 })).2.1.in_process.length
      = CommandStream.new.in_process.length + 1 ∧
    (CommandStream.new.flush
        (ok_flush_oracle 7 9 0x100000 0x7000 { id := 5, value := 42 })).2.1.fifo.waiting_fence
      = some { id := 5, value := 42 } :=
  flush_empty_runs_full_pipeline CommandStream.new 7 9 0x100000 0x7000
    { id := 5, value := 42 } rfl (by decide)

/-! ### Claim C3 -/

/-- Claim C3 (refuting instance): when every step of `flush()` succeeds
except the final kernel submission, the error propagates, but the batch's
single ring entry stays registered in the ring (cursor not reset) without
having been successfully submitted, and no fence is tracked — so after this
failed flush the ring holds one new entry that was NOT fully submitted. -/
theorem flush_submit_failure_leaves_unsubmitted_entry :
    (example_stream.flush (submit_fail_oracle 7 9 0x100000 0x7000 5)).1
      = Except.error (StreamError.errno 5) ∧
    (example_stream.flush (submit_fail_oracle 7 9 0x100000 0x7000 5)).2.2.countP
      Event.is_ring_append = 1 ∧
    (example_stream.flush (submit_fail_oracle 7 9 0x100000 0x7000 5)).2.2.countP
      Event.is_channel_submit = 1 ∧
    (example_stream.flush (submit_fail_oracle 7 9 0x100000 0x7000 5)).2.1.fifo.entries.length
      = 1 ∧
    (example_stream.flush (submit_fail_oracle 7 9 0x100000 0x7000 5)).2.1.fifo.waiting_fence
      = none := by
  decide

set_option maxHeartbeats 3000000 in
/-- Claim C3 (amended): a failure anywhere in the `flush()` pipeline aborts
the flush and propagates the failing step's error; the batch is never
partially registered: the ring gains at most one entry — none when a step
before ring registration fails, and exactly one both on success (where it
is then submitted and the cursor reset) and when the final kernel
submission step fails, in which case the entry remains pending in the ring
with no fence tracked. -/
theorem flush_error_propagation (s : CommandStream) (o : FlushOracle)
    (hcap : s.fifo.entries.length < GPFIFO_QUEUE_SIZE) :
    ((s.flush o).1 = Except.ok ()
      ↔ (except_is_ok o.alloc.create_res ∧ except_is_ok o.alloc.fd_res ∧ except_is_ok o.alloc.alloc_res
          ∧ except_is_ok o.alloc.map_buffer_res ∧ except_is_ok o.mmap_res ∧ except_is_ok o.cache_res
          ∧ except_is_ok o.munmap_res ∧ except_is_ok o.submit_res)) ∧
    (s.flush o).2.2.countP Event.is_ring_append ≤ 1 ∧
    ((s.flush o).1 = Except.ok () →
      (s.flush o).2.2.countP Event.is_ring_append = 1 ∧
      (s.flush o).2.2.countP Event.is_channel_submit = 1 ∧
      (s.flush o).2.1.fifo.entries = []) ∧
    (∀ e : Errno, (s.flush o).1 = Except.error (StreamError.errno e) →
      o.alloc.create_res = Except.error e ∨ o.alloc.fd_res = Except.error e
        ∨ o.alloc.alloc_res = Except.error e
        ∨ o.alloc.map_buffer_res = Except.error e
        ∨ o.mmap_res = Except.error e ∨ o.cache_res = Except.error e
        ∨ o.munmap_res = Except.error e ∨ o.submit_res = Except.error e) ∧
    (∀ e : Errno, o.submit_res = Except.error e →
      except_is_ok o.alloc.create_res → except_is_ok o.alloc.fd_res → except_is_ok o.alloc.alloc_res →
      except_is_ok o.alloc.map_buffer_res → except_is_ok o.mmap_res → except_is_ok o.cache_res →
      except_is_ok o.munmap_res →
      (s.flush o).1 = Except.error (StreamError.errno e) ∧
      (s.flush o).2.1.fifo.entries.length = s.fifo.entries.length + 1 ∧
      (s.flush o).2.1.fifo.waiting_fence = none) := by
  have hncap : ¬ s.fifo.entries.length ≥ GPFIFO_QUEUE_SIZE := by omega
  obtain ⟨⟨cr, fdr, ar, mbr⟩, mm, ca, mu, su⟩ := o
  cases cr <;> cases fdr <;> cases ar <;> cases mbr <;> cases mm <;> cases ca <;>
    cases mu <;> cases su <;>
    simp [CommandStream.flush, GpuAllocated.new, NvMap.create, NvMap.allocate,
      AddressSpace.map_buffer, GpuAllocated.from_raw, Handle.from_raw,
      GpuAllocated.map_for_copy, NvMap.map, GpuAllocated.flush,
      NvMap.writeback_invalidate, NvMap.cache_maintenance, GpuAllocated.unmap,
      NvMap.unmap, GpFifoQueue.append, GpFifoQueue.submit, Channel.submit_gpfifo,
      except_is_ok, hncap, Event.is_channel_submit,
      Event.is_ring_append, List.countP_cons]

/-- Witness for the amended C3 in the submission-failure case at a concrete
stream and oracle. -/
theorem flush_error_propagation_witness :
    (example_stream.flush (submit_fail_oracle 7 9 0x100000 0x7000 5)).1
      = Except.error (StreamError.errno 5) ∧
    (example_stream.flush (submit_fail_oracle 7 9 0x100000 0x7000 5)).2.1.fifo.entries.length
      = example_stream.fifo.entries.length + 1 ∧
    (example_stream.flush (submit_fail_oracle 7 9 0x100000 0x7000 5)).2.1.fifo.waiting_fence
      = none :=
  (flush_error_propagation example_stream (submit_fail_oracle 7 9 0x100000 0x7000 5)
      (by decide)).2.2.2.2 5 rfl rfl rfl rfl rfl rfl rfl rfl

end NvGpu
